import Mathlib

/-!
Shallow embedding of `battlecode/api/views.py`, restricted to the parts with
real logic: the scrimmage lifecycle endpoints of `ScrimmageViewSet`
(`get_team`, `get_map`, `get_submission`, `get_permissions`, `create`,
`accept`, `reject`, `cancel`) and the tournament bracket endpoint of
`TournamentViewSet`.  Django querysets are modelled as lists inside an
explicit database state `DB`; every endpoint is a pure function from the
database (plus the request data the view reads) to a response together with
the database after the call.  Record fields keep the source's snake_case
names.
-/

/-- A league record.  `active` and `submissions_enabled` gate mutating
requests in the viewsets' `get_permissions` hooks. -/
structure League where
  id : Nat
  active : Bool
  submissions_enabled : Bool
deriving DecidableEq

/-- A team record, with the fields the scrimmage views read: the league it
belongs to, the roster of user ids, the two auto-accept flags consulted by
`ScrimmageViewSet.create`, and the soft-delete flag. -/
structure Team where
  id : Nat
  league_id : Nat
  users : List Nat
  auto_accept_ranked : Bool
  auto_accept_unranked : Bool
  deleted : Bool
deriving DecidableEq

/-- A submission record: owning team and creation timestamp
(`submitted_at`), by which "most recent" is determined. -/
structure Submission where
  id : Nat
  team_id : Nat
  submitted_at : Nat
deriving DecidableEq

/-- A map record: league and visibility flag. -/
structure Map where
  id : Nat
  league_id : Nat
  hidden : Bool
deriving DecidableEq

/-- A scrimmage record.  `red_team`, `blue_team` and `requested_by` hold team
ids; `status` is the stringly-typed status field of the source model; the two
submission references are bound only when the scrimmage is queued. -/
structure Scrimmage where
  id : Nat
  league_id : Nat
  red_team : Nat
  blue_team : Nat
  map_id : Nat
  ranked : Bool
  requested_by : Nat
  status : String
  red_submission : Option Nat
  blue_submission : Option Nat
deriving DecidableEq

/-- The persistent store backing the Django ORM calls made by the views. -/
structure DB where
  leagues : List League
  teams : List Team
  submissions : List Submission
  maps : List Map
  scrimmages : List Scrimmage
deriving DecidableEq

/-- The responses the scrimmage endpoints can produce: `ok`/`created` carry
the serialized scrimmage (HTTP 200/201); the error cases carry the message of
the corresponding 400 / 404 / 500 response. -/
inductive ScrimResponse where
  | ok (s : Scrimmage)
  | created (s : Scrimmage)
  | badRequest (msg : String)
  | notFound (msg : String)
  | serverError (msg : String)
deriving DecidableEq

/-- Result of `ScrimmageViewSet.get_team`: the team, absence (Python `None`),
or the raised `InternalError` when the filter returns more than one row. -/
inductive TeamLookup where
  | found (t : Team)
  | absent
  | internalError
deriving DecidableEq

/-- views.py 291-297: `Team.objects.filter(league_id=league_id,
users__user_id=user_id)` — a membership lookup keyed by USER id, with no
`deleted` exclusion; zero rows gives `None`, more than one row raises
`InternalError`, otherwise `teams[0]`. -/
def ScrimmageViewSet.get_team (db : DB) (league_id user_id : Nat) : TeamLookup :=
  match db.teams.filter (fun t => t.league_id == league_id && t.users.contains user_id) with
  | [] => .absent
  | [t] => .found t
  | _ :: _ :: _ => .internalError

/-- Largest `submitted_at` in the list, preferring the earlier record on
ties; models `order_by('-submitted_at')` followed by `[0]`. -/
def latestIn : List Submission → Option Submission
  | [] => none
  | s :: rest =>
    match latestIn rest with
    | none => some s
    | some t => if s.submitted_at < t.submitted_at then some t else some s

/-- views.py 305-309: most recent submission of a team, or `None`. -/
def ScrimmageViewSet.get_submission (db : DB) (team_id : Nat) : Option Submission :=
  latestIn (db.submissions.filter (fun s => s.team_id == team_id))

/-- views.py 299-303: the map with this id among the league's non-hidden
maps, or `None`. -/
def ScrimmageViewSet.get_map (db : DB) (league_id map_id : Nat) : Option Map :=
  (db.maps.filter (fun m => m.league_id == league_id && m.hidden == false)).find?
    (fun m => m.id == map_id)

/-- The HTTP method of the request; `accept`, `reject` and `cancel` are
`@action(methods=['patch'])` endpoints, `create` is POST. -/
inductive Method where
  | get
  | head
  | options
  | post
  | patch
deriving DecidableEq

/-- `permissions.SAFE_METHODS` is `('GET', 'HEAD', 'OPTIONS')`. -/
def isSafeMethod : Method → Bool
  | .get => true
  | .head => true
  | .options => true
  | _ => false

/-- Outcome of `ScrimmageViewSet.get_permissions`: league not found, raised
`PermissionDenied`, raised `InternalError` (from `get_team`), or the request
admitted with the resolved team stashed in `kwargs` (none when the request is
unauthenticated). -/
inductive PermOutcome where
  | notFound
  | denied
  | internalError
  | allowed (team : Option Team)
deriving DecidableEq

/-- views.py 311-333: league must exist; any non-safe method additionally
requires `league.active and league.submissions_enabled`; an authenticated
user must resolve to a team via `get_team` (whose `InternalError`
propagates uncaught out of this hook). -/
def ScrimmageViewSet.get_permissions (db : DB) (league_id : Nat) (m : Method)
    (authenticated : Bool) (user_id : Nat) : PermOutcome :=
  match db.leagues.find? (fun l => l.id == league_id) with
  | none => .notFound
  | some league =>
    if !isSafeMethod m && !(league.active && league.submissions_enabled) then
      .denied
    else if authenticated then
      match ScrimmageViewSet.get_team db league_id user_id with
      | .internalError => .internalError
      | .absent => .denied
      | .found t => .allowed (some t)
    else
      .allowed none

/-- A value of the untyped `request.data['ranked']` field. -/
inductive ReqValue where
  | str (s : String)
  | boolean (b : Bool)
  | num (n : Int)
deriving DecidableEq

/-- views.py 357: the Python test `request.data['ranked'] == 'True'`.
Python equality of a non-string with the string `'True'` is `False`, and
string comparison is case sensitive. -/
def pyEqTrueString : ReqValue → Bool
  | .str s => s == "True"
  | _ => false

/-- views.py 393: `(ranked and that_team.auto_accept_ranked) or
(not ranked and that_team.auto_accept_unranked)`. -/
def autoAcceptDecision (that_team : Team) (ranked : Bool) : Bool :=
  (ranked && that_team.auto_accept_ranked) || (!ranked && that_team.auto_accept_unranked)

/-- A fresh primary key for a scrimmage row inserted by the store. -/
def nextId (db : DB) : Nat :=
  (db.scrimmages.map (fun s => s.id)).foldr max 0 + 1

/-- views.py 345-406, `ScrimmageViewSet.create`.  `team` is the requesting
user's team stashed by `get_permissions`.  Checks, in source order: the
requesting team is one of the two named sides; the other side resolves via
`get_team` (NOTE: `get_team` is a membership lookup by user id, and it is
called here with the other side's TEAM id; the `InternalError` it may raise
is caught by the surrounding `except Exception` and returned as a 400 whose
message is `'Unknown Error'` since `InternalError()` has empty `args`); the
map resolves; both `get_submission(red_team_id)` and
`get_submission(blue_team_id)` (the RAW request ids) exist.  On auto-accept
the submission ids are bound and the status is set to `'queued'`.
Modelled from the spec: the default status of a created scrimmage is
`'pending'` — the Scrimmage model and serializer are not under `src/`, and
the spec says "Scrimmage created pending (or queued if auto-accepted)". -/
def ScrimmageViewSet.create (db : DB) (league_id : Nat) (team : Team)
    (red_team_id blue_team_id map_id : Nat) (ranked_val : ReqValue) :
    ScrimResponse × DB :=
  let ranked := pyEqTrueString ranked_val
  match
    (if team.id == blue_team_id then
      some (ScrimmageViewSet.get_team db league_id red_team_id, true)
    else if team.id == red_team_id then
      some (ScrimmageViewSet.get_team db league_id blue_team_id, false)
    else none)
  with
  | none => (.badRequest "Scrimmage does not include my team", db)
  | some (lookup, thisIsBlue) =>
    match lookup with
    | .internalError => (.badRequest "Unknown Error", db)
    | .absent => (.notFound "Requested team does not exist", db)
    | .found that_team =>
      match ScrimmageViewSet.get_map db league_id map_id with
      | none => (.notFound "Requested map does not exist", db)
      | some scrim_map =>
        match ScrimmageViewSet.get_submission db red_team_id,
              ScrimmageViewSet.get_submission db blue_team_id with
        | some red_submission, some blue_submission =>
          let auto := autoAcceptDecision that_team ranked
          let s : Scrimmage :=
            { id := nextId db
              league_id := league_id
              red_team := if thisIsBlue then that_team.id else team.id
              blue_team := if thisIsBlue then team.id else that_team.id
              map_id := scrim_map.id
              ranked := ranked
              requested_by := team.id
              status := if auto then "queued" else "pending"
              red_submission := if auto then some red_submission.id else none
              blue_submission := if auto then some blue_submission.id else none }
          (.created s, { db with scrimmages := db.scrimmages ++ [s] })
        | _, _ => (.badRequest "Teams do not have submissions", db)

/-- views.py 335-337 and `.get(pk=pk)`: the scrimmage with this pk among
those in which `team` participates as red or blue; `None` models the raised
`Scrimmage.DoesNotExist`. -/
def findScrimFor (db : DB) (team : Team) (pk : Nat) : Option Scrimmage :=
  (db.scrimmages.filter (fun s => s.red_team == team.id || s.blue_team == team.id)).find?
    (fun s => s.id == pk)

/-- `scrimmage.save()`: write the record back to the store by primary key. -/
def saveScrimmage (db : DB) (s : Scrimmage) : DB :=
  { db with scrimmages := db.scrimmages.map (fun t => if t.id == s.id then s else t) }

/-- views.py 423-448, `ScrimmageViewSet.accept`: actor check first, then
status check; on success both submission references are re-resolved from the
CURRENT store via `get_submission` and the record is saved; if either latest
submission is missing, a 500 is returned and nothing is saved. -/
def ScrimmageViewSet.accept (db : DB) (team : Team) (pk : Nat) : ScrimResponse × DB :=
  match findScrimFor db team pk with
  | none => (.notFound "Scrimmage does not exist.", db)
  | some scrimmage =>
    if scrimmage.requested_by == team.id then
      (.badRequest "Cannot accept an outgoing scrimmage.", db)
    else if scrimmage.status != "pending" then
      (.badRequest "Scrimmage is not pending.", db)
    else
      match ScrimmageViewSet.get_submission db scrimmage.red_team,
            ScrimmageViewSet.get_submission db scrimmage.blue_team with
      | some rs, some bs =>
        let s2 := { scrimmage with
                    status := "queued"
                    red_submission := some rs.id
                    blue_submission := some bs.id }
        (.ok s2, saveScrimmage db s2)
      | _, _ => (.serverError "Teams should have submissions if queued", db)

/-- views.py 450-467, `ScrimmageViewSet.reject`: actor check, status check;
then the source sets `scrimmage.status = 'rejected'` on the in-memory object
and serializes it into the response, but never calls `scrimmage.save()` —
the store comes back unchanged. -/
def ScrimmageViewSet.reject (db : DB) (team : Team) (pk : Nat) : ScrimResponse × DB :=
  match findScrimFor db team pk with
  | none => (.notFound "Scrimmage does not exist.", db)
  | some scrimmage =>
    if scrimmage.requested_by == team.id then
      (.badRequest "Cannot reject an outgoing scrimmage.", db)
    else if scrimmage.status != "pending" then
      (.badRequest "Scrimmage is not pending.", db)
    else
      (.ok { scrimmage with status := "rejected" }, db)

/-- views.py 469-486, `ScrimmageViewSet.cancel`: only the requesting team may
cancel; like `reject`, the new status is set on the in-memory object only and
`save()` is never called. -/
def ScrimmageViewSet.cancel (db : DB) (team : Team) (pk : Nat) : ScrimResponse × DB :=
  match findScrimFor db team pk with
  | none => (.notFound "Scrimmage does not exist.", db)
  | some scrimmage =>
    if scrimmage.requested_by != team.id then
      (.badRequest "Cannot cancel an incoming scrimmage.", db)
    else if scrimmage.status != "pending" then
      (.badRequest "Scrimmage is not pending.", db)
    else
      (.ok { scrimmage with status := "cancelled" }, db)

/-- Number of matches in the list won by team `t`. -/
def countWins (t : Nat) (ms : List Nat) : Nat :=
  (ms.filter (fun m => m == t)).length

/-- Modelled from the spec: the body of `TournamentViewSet.bracket`
(views.py 495-545) is `pass` — only its docstring exists — so the best-of-3
aggregation is taken from spec section 4.3: walk the matches in play order,
and after each match, if the team that just won has reached 2 wins the game
is decided with that winner and the matches seen so far are the minimal
deciding set.  Returns the decided winner (or `none`) and that set. -/
def bestOf3Go (seen : List Nat) : List Nat → Option Nat × List Nat
  | [] => (none, seen)
  | m :: rest =>
    let seen2 := seen ++ [m]
    if 2 ≤ countWins m seen2 then (some m, seen2) else bestOf3Go seen2 rest

/-- Modelled from the spec (section 4.3): winner and minimal deciding set of
a game's match list. -/
def bestOf3 (ms : List Nat) : Option Nat × List Nat :=
  bestOf3Go [] ms

/-- A tournament game as read by the bracket endpoint: each recorded match is
represented by the id of the team that won it, in play order. -/
structure Game where
  index : Nat
  red_team : Nat
  blue_team : Nat
  match_list : List Nat
deriving DecidableEq

/-- The two output shapes of the bracket endpoint. -/
inductive BracketFormat where
  | replay
  | website
deriving DecidableEq

/-- One emitted game: `replays` stands for the emitted match list (one replay
reference per emitted match), `winner_ids` the per-match winner list (omitted
in website format), `winner_id` the decided game winner or `none`. -/
structure GameOut where
  replays : List Nat
  winner_ids : Option (List Nat)
  winner_id : Option Nat
deriving DecidableEq

/-- Modelled from the spec: per-format emission rules of
`TournamentViewSet.bracket` (views.py docstring and spec section 4.4):
replay format emits the minimal deciding set plus per-match winners;
website format emits all recorded matches and omits per-match winners;
both include the decided game winner or `none`. -/
def TournamentViewSet.bracketGame (fmt : BracketFormat) (g : Game) : GameOut :=
  let d := bestOf3 g.match_list
  match fmt with
  | .replay => { replays := d.2, winner_ids := some d.2, winner_id := d.1 }
  | .website => { replays := g.match_list, winner_ids := none, winner_id := d.1 }

/-- A tournament: visibility flag and rounds, each a labelled game list. -/
structure Tournament where
  id : Nat
  hidden : Bool
  rounds : List (String × List Game)
deriving DecidableEq

/-- Modelled from the spec: the bracket endpoint applies `bracketGame` to
every game of every round; a hidden tournament is not retrievable. -/
def TournamentViewSet.bracket (fmt : BracketFormat) (t : Tournament) :
    Option (List (String × List GameOut)) :=
  if t.hidden then none
  else some (t.rounds.map (fun r => (r.1, r.2.map (TournamentViewSet.bracketGame fmt))))

/-- Claim C1: for every tournament game, the bracket in replay format returns
exactly the minimal deciding set of the game's match list under best-of-3
rules and, when decided, the winning team: outcomes `[A, A]` give a replay
list of length 2 with winner `A`; outcomes `[A, B, B]` (distinct teams) give
length 3 with winner `B`; a single match `[A]` reports no winner in either
format and a replay list of length 1. -/
theorem C1_replay_minimal_deciding (a b i r bl : Nat) (h : a ≠ b) :
    (TournamentViewSet.bracketGame .replay ⟨i, r, bl, [a, a]⟩).replays.length = 2 ∧
    (TournamentViewSet.bracketGame .replay ⟨i, r, bl, [a, a]⟩).winner_id = some a ∧
    (TournamentViewSet.bracketGame .website ⟨i, r, bl, [a, a]⟩).winner_id = some a ∧
    (TournamentViewSet.bracketGame .replay ⟨i, r, bl, [a, b, b]⟩).replays.length = 3 ∧
    (TournamentViewSet.bracketGame .replay ⟨i, r, bl, [a, b, b]⟩).winner_id = some b ∧
    (TournamentViewSet.bracketGame .website ⟨i, r, bl, [a, b, b]⟩).winner_id = some b ∧
    (TournamentViewSet.bracketGame .replay ⟨i, r, bl, [a]⟩).winner_id = none ∧
    (TournamentViewSet.bracketGame .website ⟨i, r, bl, [a]⟩).winner_id = none ∧
    (TournamentViewSet.bracketGame .replay ⟨i, r, bl, [a]⟩).replays.length = 1 := by
  have hba : (a == b) = false := by simp [h]
  refine ⟨?_, ?_, ?_, ?_, ?_, ?_, ?_, ?_, ?_⟩ <;>
    simp [TournamentViewSet.bracketGame, bestOf3, bestOf3Go, countWins, hba]

/-- Witness for C1 at the concrete teams 1 and 2. -/
theorem C1_replay_minimal_deciding_witness :
    (1 : Nat) ≠ 2 ∧
    ((TournamentViewSet.bracketGame .replay ⟨0, 1, 2, [1, 1]⟩).replays.length = 2 ∧
     (TournamentViewSet.bracketGame .replay ⟨0, 1, 2, [1, 1]⟩).winner_id = some 1 ∧
     (TournamentViewSet.bracketGame .website ⟨0, 1, 2, [1, 1]⟩).winner_id = some 1 ∧
     (TournamentViewSet.bracketGame .replay ⟨0, 1, 2, [1, 2, 2]⟩).replays.length = 3 ∧
     (TournamentViewSet.bracketGame .replay ⟨0, 1, 2, [1, 2, 2]⟩).winner_id = some 2 ∧
     (TournamentViewSet.bracketGame .website ⟨0, 1, 2, [1, 2, 2]⟩).winner_id = some 2 ∧
     (TournamentViewSet.bracketGame .replay ⟨0, 1, 2, [1]⟩).winner_id = none ∧
     (TournamentViewSet.bracketGame .website ⟨0, 1, 2, [1]⟩).winner_id = none ∧
     (TournamentViewSet.bracketGame .replay ⟨0, 1, 2, [1]⟩).replays.length = 1) :=
  ⟨by decide, C1_replay_minimal_deciding 1 2 0 1 2 (by decide)⟩

/-- Teams and store for the C2 scenario: a pending scrimmage between team 1
(requester, red) and team 2 (blue). -/
def teamC2a : Team := ⟨1, 1, [10], false, false, false⟩

def teamC2b : Team := ⟨2, 1, [20], false, false, false⟩

def scrimC2 : Scrimmage := ⟨1, 1, 1, 2, 5, false, 1, "pending", none, none⟩

def dbC2 : DB := ⟨[⟨1, true, true⟩], [teamC2a, teamC2b], [], [], [scrimC2]⟩

/-- Claim C2: the reject and cancel endpoints NEVER write the store — the
source sets the new status on the in-memory object and serializes it, but
omits `scrimmage.save()` (unlike `accept`, which saves).  So for the pending
scrimmage of `dbC2`, a successful reject by the invited team reports status
`rejected` while the stored record keeps status `pending`; likewise cancel
reports `cancelled` while the store is unchanged. -/
theorem C2_reject_cancel_not_persisted :
    (∀ db team pk, (ScrimmageViewSet.reject db team pk).2 = db) ∧
    (∀ db team pk, (ScrimmageViewSet.cancel db team pk).2 = db) ∧
    (ScrimmageViewSet.reject dbC2 teamC2b 1).1 = .ok { scrimC2 with status := "rejected" } ∧
    (ScrimmageViewSet.reject dbC2 teamC2b 1).2.scrimmages = [scrimC2] ∧
    (ScrimmageViewSet.cancel dbC2 teamC2a 1).1 = .ok { scrimC2 with status := "cancelled" } ∧
    (ScrimmageViewSet.cancel dbC2 teamC2a 1).2.scrimmages = [scrimC2] ∧
    scrimC2.status = "pending" := by
  refine ⟨?_, ?_, by decide, by decide, by decide, by decide, by decide⟩
  · intro db team pk
    unfold ScrimmageViewSet.reject
    cases hf : findScrimFor db team pk
    · rfl
    · dsimp only
      split
      · rfl
      · split <;> rfl
  · intro db team pk
    unfold ScrimmageViewSet.cancel
    cases hf : findScrimFor db team pk
    · rfl
    · dsimp only
      split
      · rfl
      · split <;> rfl

/-- C3 scenario: team 1 (requester, user 10), team 2 (user 20), and team 3
whose roster contains USER 2 and which auto-accepts unranked scrimmages.
Each of teams 1, 2, 3 has one submission (ids 50, 100, 70). -/
def teamC3a : Team := ⟨1, 1, [10], false, false, false⟩

def teamC3b : Team := ⟨2, 1, [20], false, false, false⟩

def teamC3x : Team := ⟨3, 1, [2], false, true, false⟩

def dbC3 : DB :=
  ⟨[⟨1, true, true⟩], [teamC3a, teamC3b, teamC3x],
   [⟨50, 1, 3⟩, ⟨100, 2, 5⟩, ⟨70, 3, 9⟩], [⟨5, 1, false⟩], []⟩

/-- The scrimmage `create` stores for the C3 request. -/
def scrimC3out : Scrimmage := ⟨1, 1, 1, 3, 5, false, 1, "queued", some 50, some 100⟩

/-- Claim C3: team 1 requests an unranked scrimmage against team 2, but
`create` resolves the invited side by calling the membership lookup
`get_team` with the team id 2, yielding team 3 (the team whose roster holds
user 2).  Team 3 auto-accepts unranked, so the scrimmage is queued — with
`blue_team = 3` while `blue_submission` is the latest submission of team 2
(id 100), not team 3's own latest submission (id 70).  The queued
scrimmage's submission reference does not belong to its own team,
contradicting the claim. -/
theorem C3_auto_accept_binds_wrong_team_submission :
    (ScrimmageViewSet.create dbC3 1 teamC3a 1 2 5 (.str "False")).1 = .created scrimC3out ∧
    scrimC3out.status = "queued" ∧
    scrimC3out.blue_team = 3 ∧
    scrimC3out.blue_submission = some 100 ∧
    ScrimmageViewSet.get_submission dbC3 3 = some ⟨70, 3, 9⟩ ∧
    (70 : Nat) ≠ 100 := by decide

/-- C9 scenario: teams 1 (user 10) and 2 (user 20) exist in league 1, both
with a submission, plus a visible map. -/
def teamC9a : Team := ⟨1, 1, [10], false, false, false⟩

def teamC9b : Team := ⟨2, 1, [20], false, false, false⟩

def dbC9 : DB :=
  ⟨[⟨1, true, true⟩], [teamC9a, teamC9b], [⟨50, 1, 3⟩, ⟨60, 2, 4⟩],
   [⟨5, 1, false⟩], []⟩

/-- C9 second scenario: no team with id 2 exists, but user 2 is on team 7;
a submission row with `team_id = 2` is present in the store. -/
def teamC9x : Team := ⟨7, 1, [2], false, false, false⟩

def dbC9x : DB :=
  ⟨[⟨1, true, true⟩], [teamC9a, teamC9x], [⟨50, 1, 3⟩, ⟨61, 2, 4⟩],
   [⟨5, 1, false⟩], []⟩

/-- Claim C9: `create`'s team-validation does NOT decide by existence of a
team with the other side's id.  In `dbC9`, team 2 exists in the league
(non-deleted) yet creating a scrimmage of team 1 against team 2 fails with
"Requested team does not exist", because `get_team` looks up teams whose
ROSTER contains user 2.  Conversely in `dbC9x`, no team with id 2 exists at
all, yet validation passes and a scrimmage is created whose blue team is
team 7 (the team containing user 2). -/
theorem C9_team_validation_is_membership_lookup :
    (ScrimmageViewSet.create dbC9 1 teamC9a 1 2 5 (.str "True")).1 =
      .notFound "Requested team does not exist" ∧
    (teamC9b ∈ dbC9.teams ∧ teamC9b.id = 2 ∧ teamC9b.league_id = 1 ∧
      teamC9b.deleted = false) ∧
    (ScrimmageViewSet.create dbC9x 1 teamC9a 1 2 5 (.str "True")).1 =
      .created ⟨1, 1, 1, 7, 5, true, 1, "pending", none, none⟩ ∧
    (∀ t ∈ dbC9x.teams, t.id ≠ 2) := by decide

/-- A scrimmage record after queueing: status `queued` with the two
submission references bound. -/
def queuedWith (s : Scrimmage) (rid bid : Nat) : Scrimmage :=
  { s with status := "queued", red_submission := some rid, blue_submission := some bid }

/-- Claim C4: an accept on a pending scrimmage by a team other than the
requester queues the scrimmage, re-resolving each side's most recent
submission from the CURRENT store via `get_submission` and saving the
record; if either side's most recent submission is missing, the call
returns the 500 response and the store is untouched. -/
theorem C4_accept_rebinds_latest_submissions (db : DB) (team : Team) (pk : Nat)
    (s : Scrimmage) (hfind : findScrimFor db team pk = some s)
    (hactor : s.requested_by ≠ team.id) (hpend : s.status = "pending") :
    (∀ rs bs, ScrimmageViewSet.get_submission db s.red_team = some rs →
       ScrimmageViewSet.get_submission db s.blue_team = some bs →
       ScrimmageViewSet.accept db team pk =
         (.ok (queuedWith s rs.id bs.id), saveScrimmage db (queuedWith s rs.id bs.id))) ∧
    ((ScrimmageViewSet.get_submission db s.red_team = none ∨
      ScrimmageViewSet.get_submission db s.blue_team = none) →
       ScrimmageViewSet.accept db team pk =
         (.serverError "Teams should have submissions if queued", db)) := by
  have hb1 : (s.requested_by == team.id) = false := by simp [hactor]
  have hb2 : (s.status != "pending") = false := by simp [hpend]
  constructor
  · intro rs bs hrs hbs
    simp [ScrimmageViewSet.accept, hfind, hb1, hb2, hrs, hbs, queuedWith]
  · intro hnone
    rcases hnone with h | h
    · simp [ScrimmageViewSet.accept, hfind, hb1, hb2, h]
    · cases hr : ScrimmageViewSet.get_submission db s.red_team <;>
        simp [ScrimmageViewSet.accept, hfind, hb1, hb2, hr, h]

/-- C4 witness scenario: pending scrimmage between team 1 (requester) and
team 2, one submission each (ids 50 and 60). -/
def teamC4a : Team := ⟨1, 1, [10], false, false, false⟩

def teamC4b : Team := ⟨2, 1, [20], false, false, false⟩

def scrimC4 : Scrimmage := ⟨1, 1, 1, 2, 5, false, 1, "pending", none, none⟩

def dbC4 : DB :=
  ⟨[⟨1, true, true⟩], [teamC4a, teamC4b], [⟨50, 1, 3⟩, ⟨60, 2, 4⟩],
   [⟨5, 1, false⟩], [scrimC4]⟩

/-- The record accept stores in the C4 scenario. -/
def scrimC4q : Scrimmage := ⟨1, 1, 1, 2, 5, false, 1, "queued", some 50, some 60⟩

/-- Witness for C4: team 2 accepts the pending scrimmage of `dbC4`. -/
theorem C4_accept_rebinds_latest_submissions_witness :
    ScrimmageViewSet.accept dbC4 teamC4b 1 = (.ok scrimC4q, saveScrimmage dbC4 scrimC4q) := by
  have h := C4_accept_rebinds_latest_submissions dbC4 teamC4b 1 scrimC4 (by decide)
    (by decide) (by decide)
  exact h.1 ⟨50, 1, 3⟩ ⟨60, 2, 4⟩ (by decide) (by decide)

/-- C5 scenario: a cancelled scrimmage between team 1 (requester) and team 2. -/
def teamC5a : Team := ⟨1, 1, [10], false, false, false⟩

def teamC5b : Team := ⟨2, 1, [20], false, false, false⟩

def scrimC5 : Scrimmage := ⟨1, 1, 1, 2, 5, false, 1, "cancelled", none, none⟩

def dbC5 : DB := ⟨[⟨1, true, true⟩], [teamC5a, teamC5b], [], [], [scrimC5]⟩

/-- Counterexample to claim C5: on the cancelled scrimmage of `dbC5`, an
accept by the REQUESTING team fails with the actor error "Cannot accept an
outgoing scrimmage.", not with the conflict error "Scrimmage is not
pending." — the actor check runs before the status check. -/
theorem C5_counterexample_actor_error_first :
    scrimC5.status = "cancelled" ∧
    (ScrimmageViewSet.accept dbC5 teamC5a 1).1 =
      .badRequest "Cannot accept an outgoing scrimmage." ∧
    (ScrimmageViewSet.accept dbC5 teamC5a 1).1 ≠
      .badRequest "Scrimmage is not pending." := by decide

/-- Amended claim C5: on a non-pending scrimmage every accept, reject or
cancel call fails and leaves the store unchanged; the failure is the
conflict error "Scrimmage is not pending." whenever the acting team passes
the actor precondition, and the actor error otherwise. -/
theorem C5_nonpending_always_fails_store_unchanged (db : DB) (team : Team)
    (pk : Nat) (s : Scrimmage) (hfind : findScrimFor db team pk = some s)
    (hnp : s.status ≠ "pending") :
    (ScrimmageViewSet.accept db team pk).2 = db ∧
    (ScrimmageViewSet.reject db team pk).2 = db ∧
    (ScrimmageViewSet.cancel db team pk).2 = db ∧
    (s.requested_by = team.id →
       (ScrimmageViewSet.accept db team pk).1 =
         .badRequest "Cannot accept an outgoing scrimmage." ∧
       (ScrimmageViewSet.reject db team pk).1 =
         .badRequest "Cannot reject an outgoing scrimmage." ∧
       (ScrimmageViewSet.cancel db team pk).1 =
         .badRequest "Scrimmage is not pending.") ∧
    (s.requested_by ≠ team.id →
       (ScrimmageViewSet.accept db team pk).1 =
         .badRequest "Scrimmage is not pending." ∧
       (ScrimmageViewSet.reject db team pk).1 =
         .badRequest "Scrimmage is not pending." ∧
       (ScrimmageViewSet.cancel db team pk).1 =
         .badRequest "Cannot cancel an incoming scrimmage.") := by
  have hb2 : (s.status != "pending") = true := by simp [hnp]
  by_cases hq : s.requested_by = team.id
  · have hb1 : (s.requested_by == team.id) = true := by simp [hq]
    refine ⟨?_, ?_, ?_, fun _ => ⟨?_, ?_, ?_⟩, fun hne => absurd hq hne⟩ <;>
      simp [ScrimmageViewSet.accept, ScrimmageViewSet.reject,
        ScrimmageViewSet.cancel, hfind, hb1, hb2, hq]
  · have hb1 : (s.requested_by == team.id) = false := by simp [hq]
    refine ⟨?_, ?_, ?_, fun heq => absurd heq hq, fun _ => ⟨?_, ?_, ?_⟩⟩ <;>
      simp [ScrimmageViewSet.accept, ScrimmageViewSet.reject,
        ScrimmageViewSet.cancel, hfind, hb1, hb2, hq]

/-- Witness for the amended C5: team 2 (the invited side) accepts the
cancelled scrimmage of `dbC5`; the call fails with the conflict error and
the store is unchanged. -/
theorem C5_nonpending_always_fails_witness :
    (ScrimmageViewSet.accept dbC5 teamC5b 1).1 = .badRequest "Scrimmage is not pending." ∧
    (ScrimmageViewSet.accept dbC5 teamC5b 1).2 = dbC5 := by
  have h := C5_nonpending_always_fails_store_unchanged dbC5 teamC5b 1 scrimC5
    (by decide) (by decide)
  exact ⟨(h.2.2.2.2 (by decide)).1, h.1⟩

/-- C6 scenario: a pending scrimmage between team 1 (requester) and team 2. -/
def teamC6a : Team := ⟨1, 1, [10], false, false, false⟩

def teamC6b : Team := ⟨2, 1, [20], false, false, false⟩

def scrimC6 : Scrimmage := ⟨1, 1, 1, 2, 5, false, 1, "pending", none, none⟩

def dbC6 : DB := ⟨[⟨1, true, true⟩], [teamC6a, teamC6b], [], [], [scrimC6]⟩

/-- Claim C6: on a pending scrimmage, an accept or reject by the requesting
team is refused with the "outgoing scrimmage" error and a cancel by the
other team is refused with the "incoming scrimmage" error; conversely a
successful (200) accept or reject implies the acting team was not the
requester, and a successful cancel implies it was. -/
theorem C6_actor_rules (db : DB) (team : Team) (pk : Nat) (s : Scrimmage)
    (hfind : findScrimFor db team pk = some s) (_hpend : s.status = "pending") :
    (s.requested_by = team.id →
       (ScrimmageViewSet.accept db team pk).1 =
         .badRequest "Cannot accept an outgoing scrimmage." ∧
       (ScrimmageViewSet.reject db team pk).1 =
         .badRequest "Cannot reject an outgoing scrimmage.") ∧
    (s.requested_by ≠ team.id →
       (ScrimmageViewSet.cancel db team pk).1 =
         .badRequest "Cannot cancel an incoming scrimmage.") ∧
    (∀ s2 db2, ScrimmageViewSet.accept db team pk = (.ok s2, db2) →
       s.requested_by ≠ team.id) ∧
    (∀ s2 db2, ScrimmageViewSet.reject db team pk = (.ok s2, db2) →
       s.requested_by ≠ team.id) ∧
    (∀ s2 db2, ScrimmageViewSet.cancel db team pk = (.ok s2, db2) →
       s.requested_by = team.id) := by
  by_cases hq : s.requested_by = team.id
  · have hb1 : (s.requested_by == team.id) = true := by simp [hq]
    refine ⟨fun _ => ⟨?_, ?_⟩, fun hne => absurd hq hne, ?_, ?_, fun _ _ _ => hq⟩
    · simp [ScrimmageViewSet.accept, hfind, hb1]
    · simp [ScrimmageViewSet.reject, hfind, hb1]
    · intro s2 db2 hcontra
      simp [ScrimmageViewSet.accept, hfind, hb1] at hcontra
    · intro s2 db2 hcontra
      simp [ScrimmageViewSet.reject, hfind, hb1] at hcontra
  · have hb1 : (s.requested_by == team.id) = false := by simp [hq]
    refine ⟨fun heq => absurd heq hq, fun _ => ?_, fun _ _ _ => hq, fun _ _ _ => hq, ?_⟩
    · simp [ScrimmageViewSet.cancel, hfind, hb1, hq]
    · intro s2 db2 hcontra
      simp [ScrimmageViewSet.cancel, hfind, hb1, hq] at hcontra

/-- Witness for C6: on the pending scrimmage of `dbC6`, team 1's accept is
refused as outgoing and team 2's cancel is refused as incoming. -/
theorem C6_actor_rules_witness :
    (ScrimmageViewSet.accept dbC6 teamC6a 1).1 =
      .badRequest "Cannot accept an outgoing scrimmage." ∧
    (ScrimmageViewSet.cancel dbC6 teamC6b 1).1 =
      .badRequest "Cannot cancel an incoming scrimmage." := by
  have h1 := C6_actor_rules dbC6 teamC6a 1 scrimC6 (by decide) (by decide)
  have h2 := C6_actor_rules dbC6 teamC6b 1 scrimC6 (by decide) (by decide)
  exact ⟨(h1.1 (by decide)).1, h2.2.1 (by decide)⟩

/-- C7 scenario: two stores identical except for the league's
submissions-enabled toggle; user 20 is on team 1. -/
def leagueC7off : League := ⟨1, true, false⟩

def leagueC7on : League := ⟨1, true, true⟩

def teamC7 : Team := ⟨1, 1, [20], false, false, false⟩

def dbC7off : DB := ⟨[leagueC7off], [teamC7], [], [], []⟩

def dbC7on : DB := ⟨[leagueC7on], [teamC7], [], [], []⟩

/-- Counterexample to claim C7: accept/reject/cancel are PATCH requests, and
PATCH is not a safe method, so `get_permissions` denies them whenever the
league's submissions toggle is off — with the toggle flipped on and nothing
else changed, the same request is admitted.  The outcome DOES depend on
`submissions_enabled`. -/
theorem C7_counterexample_toggle_denies_patch :
    leagueC7off.active = true ∧
    leagueC7off.submissions_enabled = false ∧
    isSafeMethod .patch = false ∧
    ScrimmageViewSet.get_permissions dbC7off 1 .patch true 20 = .denied ∧
    ScrimmageViewSet.get_permissions dbC7on 1 .patch true 20 = .allowed (some teamC7) ∧
    leagueC7on = { leagueC7off with submissions_enabled := true } := by decide

/-- Amended claim C7: every non-safe request (which includes the PATCH
accept/reject/cancel endpoints as well as create) on an existing, active
league with `submissions_enabled = false` is permission-denied by
`get_permissions`. -/
theorem C7_patch_requires_submissions_enabled (db : DB) (league_id : Nat)
    (m : Method) (auth : Bool) (user_id : Nat) (league : League)
    (hleague : db.leagues.find? (fun l => l.id == league_id) = some league)
    (hactive : league.active = true) (hsub : league.submissions_enabled = false)
    (hm : isSafeMethod m = false) :
    ScrimmageViewSet.get_permissions db league_id m auth user_id = .denied := by
  simp [ScrimmageViewSet.get_permissions, hleague, hactive, hsub, hm]

/-- Witness for the amended C7 at the concrete store `dbC7off`. -/
theorem C7_patch_requires_submissions_enabled_witness :
    ScrimmageViewSet.get_permissions dbC7off 1 .patch true 20 = .denied :=
  C7_patch_requires_submissions_enabled dbC7off 1 .patch true 20 leagueC7off
    (by decide) (by decide) (by decide) (by decide)

/-- C8 scenario: user 2 is on two teams (ids 5 and 6) of league 1, violating
the uniqueness invariant; team 1 (user 10) is the requester. -/
def teamC8a : Team := ⟨1, 1, [10], false, false, false⟩

def teamC8p : Team := ⟨5, 1, [2], false, false, false⟩

def teamC8q : Team := ⟨6, 1, [2], false, false, false⟩

def dbC8 : DB := ⟨[⟨1, true, true⟩], [teamC8a, teamC8p, teamC8q], [], [], []⟩

/-- Counterexample to claim C8: inside `create`, the `InternalError` raised
by the eligibility lookup is caught by the surrounding `except Exception`
and converted into a caller-visible 400 response with message
"Unknown Error" — not surfaced as a 500-equivalent. -/
theorem C8_counterexample_internal_error_becomes_400 :
    ScrimmageViewSet.get_team dbC8 1 2 = .internalError ∧
    (ScrimmageViewSet.create dbC8 1 teamC8a 1 2 5 (.str "True")).1 =
      .badRequest "Unknown Error" := by decide

/-- Amended claim C8: when the lookup finds more than one team, `get_team`
raises `InternalError`; from `get_permissions` this propagates as a
500-equivalent internal error, but inside `create` the catch-all `except`
converts it into a 400 "Unknown Error" validation response. -/
theorem C8_multi_team_internal_error_paths (db : DB) (league_id user_id : Nat)
    (m : Method) (league : League)
    (hleague : db.leagues.find? (fun l => l.id == league_id) = some league)
    (hok : (league.active && league.submissions_enabled) = true)
    (hmulti : ScrimmageViewSet.get_team db league_id user_id = .internalError) :
    ScrimmageViewSet.get_permissions db league_id m true user_id = .internalError ∧
    (∀ team red_team_id blue_team_id map_id v,
       team.id ≠ blue_team_id → team.id = red_team_id →
       ScrimmageViewSet.get_team db league_id blue_team_id = .internalError →
       ScrimmageViewSet.create db league_id team red_team_id blue_team_id map_id v =
         (.badRequest "Unknown Error", db)) := by
  constructor
  · simp [ScrimmageViewSet.get_permissions, hleague, hok, hmulti]
  · intro team red_team_id blue_team_id map_id v h1 h2 h3
    have hb1 : (team.id == blue_team_id) = false := by simp [h1]
    have hb2 : (team.id == red_team_id) = true := by simp [h2]
    simp [ScrimmageViewSet.create, hb1, hb2, h3]

/-- Witness for the amended C8 at the concrete store `dbC8`. -/
theorem C8_multi_team_internal_error_paths_witness :
    ScrimmageViewSet.get_permissions dbC8 1 .patch true 2 = .internalError ∧
    ScrimmageViewSet.create dbC8 1 teamC8a 1 2 5 (.str "True") =
      (.badRequest "Unknown Error", dbC8) := by
  have h := C8_multi_team_internal_error_paths dbC8 1 2 .patch ⟨1, true, true⟩
    (by decide) (by decide) (by decide)
  exact ⟨h.1, h.2 teamC8a 1 2 5 (.str "True") (by decide) (by decide) (by decide)⟩

/-- Claim C10: the scrimmage's ranked flag is true exactly when the request's
ranked field is the literal string "True"; the lowercase string "true" and a
boolean true both give ranked = false; any created scrimmage carries
`ranked = pyEqTrueString v`; and an unranked request makes the auto-accept
test consult `auto_accept_unranked` while a ranked one consults
`auto_accept_ranked`. -/
theorem C10_ranked_is_literal_True_string :
    (∀ v, pyEqTrueString v = true ↔ v = .str "True") ∧
    pyEqTrueString (.str "true") = false ∧
    pyEqTrueString (.boolean true) = false ∧
    (∀ db league_id team red_team_id blue_team_id map_id v s db2,
       ScrimmageViewSet.create db league_id team red_team_id blue_team_id map_id v =
         (.created s, db2) → s.ranked = pyEqTrueString v) ∧
    (∀ t, autoAcceptDecision t false = t.auto_accept_unranked ∧
          autoAcceptDecision t true = t.auto_accept_ranked) := by
  refine ⟨?_, by decide, by decide, ?_, ?_⟩
  · intro v
    cases v <;> simp [pyEqTrueString]
  · intro db league_id team red_team_id blue_team_id map_id v s db2 h
    unfold ScrimmageViewSet.create at h
    split at h
    · simp at h
    · rename_i lookup thisIsBlue heq
      cases lookup with
      | internalError => simp at h
      | absent => simp at h
      | found that_team =>
        cases hm : ScrimmageViewSet.get_map db league_id map_id with
        | none => rw [hm] at h; simp at h
        | some scrim_map =>
          rw [hm] at h
          cases hr : ScrimmageViewSet.get_submission db red_team_id with
          | none => rw [hr] at h; simp at h
          | some rsub =>
            rw [hr] at h
            cases hb : ScrimmageViewSet.get_submission db blue_team_id with
            | none => rw [hb] at h; simp at h
            | some bsub =>
              rw [hb] at h
              simp only [Prod.mk.injEq, ScrimResponse.created.injEq] at h
              rw [← h.1]
  · intro t
    constructor <;> simp [autoAcceptDecision]

/-- C10 witness scenario: team 2's roster happens to contain user 2, so the
membership lookup resolves it; no auto-accept flags are set. -/
def teamC10a : Team := ⟨1, 1, [10], false, false, false⟩

def teamC10b : Team := ⟨2, 1, [2, 20], false, false, false⟩

def dbC10 : DB :=
  ⟨[⟨1, true, true⟩], [teamC10a, teamC10b], [⟨50, 1, 3⟩, ⟨60, 2, 4⟩],
   [⟨5, 1, false⟩], []⟩

/-- The scrimmage created in the C10 scenario. -/
def scrimC10out : Scrimmage := ⟨1, 1, 1, 2, 5, false, 1, "pending", none, none⟩

def dbC10out : DB := { dbC10 with scrimmages := [scrimC10out] }

/-- Witness for C10: a create request with ranked field the lowercase string
"true" yields a scrimmage with `ranked = false`. -/
theorem C10_ranked_is_literal_True_string_witness :
    pyEqTrueString (.str "true") = false ∧
    scrimC10out.ranked = pyEqTrueString (.str "true") := by
  have h := C10_ranked_is_literal_True_string
  exact ⟨h.2.1,
    h.2.2.2.1 dbC10 1 teamC10a 1 2 5 (.str "true") scrimC10out dbC10out (by decide)⟩
